import Mathlib

/-
Verification of the workflow router / step-plan state machine of the
network-troubleshooting repository (graph.py and agents/models.py).

The data model and the node functions are shallowly embedded from the
Python source:
  * `TroubleshootingStep` and `ActionAnalysisReport` mirror the pydantic
    models in agents/models.py (mutually recursive through
    `updated_action_plan_remaining`).
  * pydantic construction of `ActionAnalysisReport` is embedded as
    `mkActionAnalysisReport`, which validates the fields the way pydantic
    does: the `analysis` field is declared `str`, so a call site that
    passes a Python list makes the constructor raise a ValidationError
    (modelled as `Except.error`).  The `next_action_type` field carries a
    regex pattern restricting it to the four verdict strings.
  * `run_action_router_node` embeds the router node of graph.py: the
    returned `RouterOutcome` holds the graph state as merged by the
    LangGraph `Command(update=...)` of the branch taken (fields absent
    from a branch's update keep their previous state values), plus the
    target node and the number of `interrupt()` calls that returned.
  * `run_action_analyzer_node` embeds the plan-replacement tail of the
    analyzer node (the LLM call itself is an external collaborator whose
    output is the `analysis_report` argument).
  * `runSession` embeds the orchestrator loop
    router -> executor -> analyzer -> router with the analyzer LLM output
    given by an oracle, instrumented with trace bookkeeping (dispatch
    serial numbers and an append log) used to state trace invariants.
-/

namespace Adapt

/-- The four step kinds of `TroubleshootingStep.action_type`
(a `Literal` in agents/models.py). -/
inductive ActionType where
  | diagnostic
  | config
  | exec
  | escalation
deriving DecidableEq

mutual

/-- `ActionAnalysisReport` of agents/models.py.  `analysis` has already
passed pydantic's `str` validation here; `next_action_type` has passed the
pattern check (construction goes through `mkActionAnalysisReport`). -/
inductive ActionAnalysisReport : Type where
  | mk
    (analysis : String)
    (findings : List String)
    (next_action_type : String)
    (next_action_reason : String)
    (updated_action_plan_remaining : Option (List TroubleshootingStep)) :
    ActionAnalysisReport

/-- `TroubleshootingStep` of agents/models.py. -/
inductive TroubleshootingStep : Type where
  | mk
    (description : String)
    (action_type : ActionType)
    (commands : List String)
    (output_expectation : String)
    (requires_approval : Bool)
    (analysis_report : Option ActionAnalysisReport) :
    TroubleshootingStep

end

def ActionAnalysisReport.analysis : ActionAnalysisReport → String
  | .mk a _ _ _ _ => a

def ActionAnalysisReport.findings : ActionAnalysisReport → List String
  | .mk _ f _ _ _ => f

def ActionAnalysisReport.next_action_type : ActionAnalysisReport → String
  | .mk _ _ t _ _ => t

def ActionAnalysisReport.next_action_reason : ActionAnalysisReport → String
  | .mk _ _ _ r _ => r

def ActionAnalysisReport.updated_action_plan_remaining :
    ActionAnalysisReport → Option (List TroubleshootingStep)
  | .mk _ _ _ _ u => u

def TroubleshootingStep.description : TroubleshootingStep → String
  | .mk d _ _ _ _ _ => d

def TroubleshootingStep.action_type : TroubleshootingStep → ActionType
  | .mk _ a _ _ _ _ => a

def TroubleshootingStep.commands : TroubleshootingStep → List String
  | .mk _ _ c _ _ _ => c

def TroubleshootingStep.output_expectation : TroubleshootingStep → String
  | .mk _ _ _ o _ _ => o

def TroubleshootingStep.requires_approval : TroubleshootingStep → Bool
  | .mk _ _ _ _ r _ => r

def TroubleshootingStep.analysis_report :
    TroubleshootingStep → Option ActionAnalysisReport
  | .mk _ _ _ _ _ rep => rep

/-- The Python statement `current_step.analysis_report = rpt` (field
assignment on the pydantic object). -/
def TroubleshootingStep.withReport :
    TroubleshootingStep → Option ActionAnalysisReport → TroubleshootingStep
  | .mk d a c o r _, rep => .mk d a c o r rep

/-- A Python value passed for the `analysis` keyword argument of
`ActionAnalysisReport(...)`: the call sites in graph.py pass either a
plain string or a list of strings. -/
inductive PyStrOrList where
  | str (s : String)
  | list (l : List String)

/-- The error pydantic raises when the `str`-typed `analysis` field is
given a list. -/
def analysisTypeError : String :=
  "ValidationError: 1 validation error for ActionAnalysisReport: analysis: Input should be a valid string"

/-- The error pydantic raises when `next_action_type` fails its pattern. -/
def nextActionPatternError : String :=
  "ValidationError: 1 validation error for ActionAnalysisReport: next_action_type: String should match pattern"

/-- pydantic construction of `ActionAnalysisReport` (agents/models.py):
`analysis` is declared `str` (a list input is a validation error), and
`next_action_type` must match the pattern
continue|new_action|escalate|resolve. -/
def mkActionAnalysisReport (analysis : PyStrOrList) (findings : List String)
    (next_action_type : String) (next_action_reason : String)
    (updated_action_plan_remaining : Option (List TroubleshootingStep)) :
    Except String ActionAnalysisReport :=
  match analysis with
  | .list _ => .error analysisTypeError
  | .str s =>
    if next_action_type ∈ ["continue", "new_action", "escalate", "resolve"] then
      .ok (.mk s findings next_action_type next_action_reason
        updated_action_plan_remaining)
    else
      .error nextActionPatternError

/-- The settings dictionary keys read by the workflow code.  `none`
models an absent key (`settings.get` supplies defaults). -/
structure Settings where
  max_steps : Option Nat
  adaptive_mode : Option Bool

/-- `settings.get("max_steps", 15)` in the router node. -/
def Settings.get_max_steps (s : Settings) : Nat :=
  s.max_steps.getD 15

/-- `device_facts` as consulted by the router: an association of keys to
boolean values (only the boolean-valued `"reachable"` entry is ever read
by the router). -/
abbrev DeviceFacts := List (String × Bool)

/-- `device_facts.get(key, default)`. -/
def devFactsGet (d : DeviceFacts) (key : String) (default : Bool) : Bool :=
  match d.find? (fun p => p.1 == key) with
  | some p => p.2
  | none => default

/-- The slice of the graph state read and written by the router node. -/
structure RouterInputState where
  action_plan_history : List TroubleshootingStep
  action_plan_remaining : List TroubleshootingStep
  current_step : Option TroubleshootingStep
  current_step_index : Nat

/-- Target node of the `Command` returned by the router. -/
inductive Goto where
  | action_executor
  | result_summary
deriving DecidableEq

/-- The graph state after merging the `Command(update=...)` of the branch
the router took, plus the goto target and the number of `interrupt()`
calls that returned a response during the cycle. -/
structure RouterOutcome where
  action_plan_history : List TroubleshootingStep
  action_plan_remaining : List TroubleshootingStep
  current_step : Option TroubleshootingStep
  current_step_index : Nat
  goto : Goto
  interrupts : Nat

/-- Result of one router-node invocation: a normal `Command` return, an
exception escaping the node, or suspension inside the approval loop after
the provided human responses are exhausted. -/
inductive RouterResult where
  | ok (o : RouterOutcome)
  | exn (msg : String)
  | awaiting (interrupts : Nat)

/-- `yes_responses` of the approval gate in graph.py. -/
def yes_responses : List String := ["yes", "y", "true", "approve", "1"]

/-- `no_responses` of the approval gate in graph.py. -/
def no_responses : List String := ["no", "n", "false", "reject", "0"]

/-- `response_text.lower().strip()`: lower-case the characters and strip
surrounding whitespace (executable over the character list so concrete
responses evaluate). -/
def normalizeResponse (s : String) : String :=
  ⟨(((s.data.map Char.toLower).dropWhile Char.isWhitespace).reverse.dropWhile
      Char.isWhitespace).reverse⟩

/-- The synthetic report built on user rejection (graph.py, approval
gate, "no" branch). -/
def rejectionReportArgs : PyStrOrList × List String × String × String :=
  (.str "No analysis performed due to action being rejected by user.", [],
    "escalate", "Action rejected by user.")

/-- The `while` loop at the approval gate: each iteration calls
`interrupt()` for one more human response; a yes-equivalent goes to the
executor, a no-equivalent synthesizes a rejection report, appends the
step to history and goes to the result summary; anything else re-prompts.
`responses` are the successive human responses, `n` counts the
`interrupt()` calls that have already returned. -/
def approvalLoop (hist rem : List TroubleshootingStep) (idx : Nat)
    (cs : TroubleshootingStep) :
    List String → Nat → RouterResult
  | [], n => .awaiting n
  | resp :: rest, n =>
    let t := normalizeResponse resp
    if t ∈ yes_responses then
      .ok ⟨hist, rem, some cs, idx, .action_executor, n + 1⟩
    else if t ∈ no_responses then
      match mkActionAnalysisReport rejectionReportArgs.1 rejectionReportArgs.2.1
          rejectionReportArgs.2.2.1 rejectionReportArgs.2.2.2 none with
      | .error e => .exn e
      | .ok rpt =>
        let cs2 := cs.withReport (some rpt)
        .ok ⟨hist ++ [cs2], rem, some cs2, idx, .result_summary, n + 1⟩
    else
      approvalLoop hist rem idx cs rest (n + 1)

/-- The part of the router cycle from the "steps remaining" check onward
(graph.py lines 577-716): plan-exhaustion check, reachability gate,
dequeue, escalation-type interception, approval gate, dispatch.
`hist`, `idx` are the local variables after the ingestion block; `cur` is
the local `current_step` before the dequeue; `state` supplies the stored
values for fields a branch's update does not mention. -/
def routerDequeuePhase (device_facts : DeviceFacts) (state : RouterInputState)
    (hist : List TroubleshootingStep) (idx : Nat)
    (cur : Option TroubleshootingStep) (responses : List String) :
    RouterResult :=
  match state.action_plan_remaining with
  | [] =>
    -- update: history, remaining, current_step (index keeps its stored value)
    .ok ⟨hist, state.action_plan_remaining, cur, state.current_step_index,
      .result_summary, 0⟩
  | cs :: rest =>
    if !(devFactsGet device_facts "reachable" false) then
      -- update: history, remaining, current_step_index, current_step
      .ok ⟨hist, state.action_plan_remaining, cur, idx, .result_summary, 0⟩
    else
      -- dequeue the head of the remaining plan
      if cs.action_type = .escalation then
        match mkActionAnalysisReport
            (.str "No analysis performed due to escalation") [] "escalate" ""
            none with
        | .error e => .exn e
        | .ok rpt =>
          let cs2 := cs.withReport (some rpt)
          .ok ⟨hist ++ [cs2], rest, some cs2, idx, .result_summary, 0⟩
      else if cs.requires_approval then
        approvalLoop hist rest idx cs responses 0
      else
        .ok ⟨hist, rest, some cs, idx, .action_executor, 0⟩

/-- `run_action_router_node` of graph.py (one router cycle). -/
def run_action_router_node (settings : Settings)
    (device_facts : DeviceFacts) (state : RouterInputState)
    (responses : List String) : RouterResult :=
  match state.current_step with
  | some cs =>
    match cs.analysis_report with
    | some rpt =>
      -- ingestion: append the executed step to history
      let hist := state.action_plan_history ++ [cs]
      if rpt.next_action_type = "escalate" then
        -- update: history only
        .ok ⟨hist, state.action_plan_remaining, state.current_step,
          state.current_step_index, .result_summary, 0⟩
      else if rpt.next_action_type = "resolve" then
        -- update: history only
        .ok ⟨hist, state.action_plan_remaining, state.current_step,
          state.current_step_index, .result_summary, 0⟩
      else
        let idx := state.current_step_index + 1
        let max_steps := settings.get_max_steps
        if idx > max_steps then
          -- graph.py lines 559-567: the constructor is called with
          -- analysis=[...] (a Python list) although the model field is str
          match mkActionAnalysisReport
              (.list ["Maximum step count of " ++ toString max_steps ++
                " has been exceeded"])
              ["Workflow exceeded maximum allowed steps (" ++
                toString max_steps ++ ")"]
              "escalate"
              ("Maximum step count of " ++ toString max_steps ++
                " has been exceeded. Escalating for human intervention.")
              none with
          | .error e => .exn e
          | .ok rpt2 =>
            -- only reachable if the constructor succeeded; the entry
            -- appended at ingestion is the same mutated object
            let cs2 := cs.withReport (some rpt2)
            .ok ⟨state.action_plan_history ++ [cs2, cs2],
              state.action_plan_remaining, some cs2,
              state.current_step_index, .result_summary, 0⟩
        else
          routerDequeuePhase device_facts state hist idx (some cs) responses
    | none =>
      routerDequeuePhase device_facts state state.action_plan_history
        state.current_step_index (some cs) responses
  | none =>
    routerDequeuePhase device_facts state state.action_plan_history
      state.current_step_index none responses

/-- The plan-replacement tail of `run_action_analyzer_node` (graph.py
lines 892-931): `analysis_report` is the LLM output already validated by
pydantic-ai; a truthy `updated_action_plan_remaining` (present and
non-empty) replaces the remaining plan, and the report is attached to the
current step.  Returns the updated `current_step` and
`action_plan_remaining`.  `settings` is part of the node's dependencies
but is not consulted by this code. -/
def run_action_analyzer_node (settings : Settings)
    (action_plan_remaining : List TroubleshootingStep)
    (current_step : TroubleshootingStep)
    (analysis_report : ActionAnalysisReport) :
    TroubleshootingStep × List TroubleshootingStep :=
  let _ := settings
  let action_plan_remaining :=
    match analysis_report.updated_action_plan_remaining with
    | some l => if l.isEmpty then action_plan_remaining else l
    | none => action_plan_remaining
  let current_step := current_step.withReport (some analysis_report)
  (current_step, action_plan_remaining)

/-! ### Session traces

The orchestrator wires router -> executor -> analyzer -> router into a
loop (`build_graph` in graph.py).  `runSession` runs that loop with the
analyzer LLM output supplied by `oracle` (indexed by the dispatch serial
number of the analyzed step) and the human approval responses supplied by
`approvals` (indexed by the interrupt counter).  The fields
`nDispatched`, `dispatched` and `appendLog` are trace bookkeeping (not
part of the Python state): each dequeued step is tagged with the serial
number it would get at dispatch, `dispatched` records the steps handed to
the executor, and `appendLog` records the serial of the step instance at
every history append. -/

structure SessionState where
  action_plan_history : List TroubleshootingStep
  action_plan_remaining : List TroubleshootingStep
  current_step : Option (Nat × TroubleshootingStep)
  current_step_index : Nat
  nDispatched : Nat
  dispatched : List TroubleshootingStep
  appendLog : List Nat

/-- How a session run ends: a transition to the result summary, an
exception escaping a node, suspension at the approval gate with no
further (valid) responses, or exhaustion of the step fuel of the model
(not a behaviour of the code: the loop itself has no step bound). -/
inductive SessionOutcome where
  | terminated (s : SessionState)
  | crashed (msg : String) (s : SessionState)
  | suspended (s : SessionState)
  | outOfFuel (s : SessionState)

def SessionOutcome.state : SessionOutcome → SessionState
  | .terminated s => s
  | .crashed _ s => s
  | .suspended s => s
  | .outOfFuel s => s

def SessionOutcome.isTerminated : SessionOutcome → Bool
  | .terminated _ => true
  | _ => false

def SessionOutcome.isCrashed : SessionOutcome → Bool
  | .crashed _ _ => true
  | _ => false

/-- Scan successive human responses from interrupt counter `n` until one
matches the accept-set or the reject-set, mirroring the approval `while`
loop; returns the interrupt counter after the matching response and
whether it was a yes.  `none` when `fuel` runs out (the loop would keep
waiting). -/
def approvalScan (approvals : Nat → String) : Nat → Nat → Option (Nat × Bool)
  | 0, _ => none
  | fuel + 1, n =>
    let t := normalizeResponse (approvals n)
    if t ∈ yes_responses then some (n + 1, true)
    else if t ∈ no_responses then some (n + 1, false)
    else approvalScan approvals fuel (n + 1)

/-- The dequeue phase of one orchestrator cycle (same control flow as
`routerDequeuePhase`), followed — when the router dispatches — by the
executor node (which does not touch the plan partition) and the analyzer
node.  `hist`, `lg`, `idx`, `cur` are the local values after the
ingestion block.  Returns either a final outcome or the state and
interrupt counter for the next cycle. -/
def sessionDequeuePhase (settings : Settings) (device_facts : DeviceFacts)
    (oracle : Nat → ActionAnalysisReport) (approvals : Nat → String)
    (iFuel : Nat) (nInt : Nat) (s : SessionState)
    (hist : List TroubleshootingStep) (lg : List Nat) (idx : Nat)
    (cur : Option (Nat × TroubleshootingStep)) :
    SessionOutcome ⊕ (Nat × SessionState) :=
  match s.action_plan_remaining with
  | [] =>
    .inl (.terminated { s with
      action_plan_history := hist
      appendLog := lg
      current_step := cur })
  | cs :: rest =>
    if !(devFactsGet device_facts "reachable" false) then
      .inl (.terminated { s with
        action_plan_history := hist
        appendLog := lg
        current_step := cur
        current_step_index := idx })
    else
      -- dequeue; the step is tagged with the serial it gets at dispatch
      let ser := s.nDispatched
      if cs.action_type = .escalation then
        match mkActionAnalysisReport
            (.str "No analysis performed due to escalation") [] "escalate" ""
            none with
        | .error e =>
          .inl (.crashed e { s with
            action_plan_history := hist
            appendLog := lg
            current_step := some (ser, cs)
            current_step_index := idx })
        | .ok rpt =>
          let cs2 := cs.withReport (some rpt)
          .inl (.terminated { s with
            action_plan_history := hist ++ [cs2]
            appendLog := lg ++ [ser]
            action_plan_remaining := rest
            current_step := some (ser, cs2)
            current_step_index := idx })
      else if cs.requires_approval then
        match approvalScan approvals iFuel nInt with
        | none =>
          -- suspended inside interrupt(); the in-place mutations
          -- (ingestion append, current_step assignment) are visible in
          -- the checkpointed state, the local pop of the remaining plan
          -- is not
          .inl (.suspended { s with
            action_plan_history := hist
            appendLog := lg
            current_step := some (ser, cs) })
        | some (_, false) =>
          match mkActionAnalysisReport rejectionReportArgs.1
              rejectionReportArgs.2.1 rejectionReportArgs.2.2.1
              rejectionReportArgs.2.2.2 none with
          | .error e =>
            .inl (.crashed e { s with
              action_plan_history := hist
              appendLog := lg
              current_step := some (ser, cs)
              current_step_index := idx })
          | .ok rpt =>
            let cs2 := cs.withReport (some rpt)
            .inl (.terminated { s with
              action_plan_history := hist ++ [cs2]
              appendLog := lg ++ [ser]
              action_plan_remaining := rest
              current_step := some (ser, cs2)
              current_step_index := idx })
        | some (nInt2, true) =>
          -- dispatch: executor node, then analyzer node with the LLM
          -- report for this dispatch serial
          let rpt := oracle ser
          let res := run_action_analyzer_node settings rest cs rpt
          .inr (nInt2, {
            action_plan_history := hist
            action_plan_remaining := res.2
            current_step := some (ser, res.1)
            current_step_index := idx
            nDispatched := ser + 1
            dispatched := s.dispatched ++ [cs]
            appendLog := lg })
      else
        let rpt := oracle ser
        let res := run_action_analyzer_node settings rest cs rpt
        .inr (nInt, {
          action_plan_history := hist
          action_plan_remaining := res.2
          current_step := some (ser, res.1)
          current_step_index := idx
          nDispatched := ser + 1
          dispatched := s.dispatched ++ [cs]
          appendLog := lg })

/-- One full orchestrator cycle: the router's ingestion block (append the
analyzed step, terminal short-circuit, step-budget check) followed by
`sessionDequeuePhase`. -/
def sessionCycle (settings : Settings) (device_facts : DeviceFacts)
    (oracle : Nat → ActionAnalysisReport) (approvals : Nat → String)
    (iFuel : Nat) (nInt : Nat) (s : SessionState) :
    SessionOutcome ⊕ (Nat × SessionState) :=
  match s.current_step with
  | some (ser, cs) =>
    match cs.analysis_report with
    | some rpt =>
      let hist := s.action_plan_history ++ [cs]
      let lg := s.appendLog ++ [ser]
      if rpt.next_action_type = "escalate" then
        .inl (.terminated { s with
          action_plan_history := hist
          appendLog := lg })
      else if rpt.next_action_type = "resolve" then
        .inl (.terminated { s with
          action_plan_history := hist
          appendLog := lg })
      else
        let idx := s.current_step_index + 1
        let max_steps := settings.get_max_steps
        if idx > max_steps then
          match mkActionAnalysisReport
              (.list ["Maximum step count of " ++ toString max_steps ++
                " has been exceeded"])
              ["Workflow exceeded maximum allowed steps (" ++
                toString max_steps ++ ")"]
              "escalate"
              ("Maximum step count of " ++ toString max_steps ++
                " has been exceeded. Escalating for human intervention.")
              none with
          | .error e =>
            -- the constructor raises; the ingestion append (an in-place
            -- list mutation) is already visible, the synthetic report and
            -- the second append never happen
            .inl (.crashed e { s with
              action_plan_history := hist
              appendLog := lg })
          | .ok rpt2 =>
            let cs2 := cs.withReport (some rpt2)
            .inl (.terminated { s with
              action_plan_history := s.action_plan_history ++ [cs2, cs2]
              appendLog := s.appendLog ++ [ser, ser]
              current_step := some (ser, cs2) })
        else
          sessionDequeuePhase settings device_facts oracle approvals iFuel
            nInt s hist lg idx (some (ser, cs))
    | none =>
      sessionDequeuePhase settings device_facts oracle approvals iFuel nInt s
        s.action_plan_history s.appendLog s.current_step_index
        (some (ser, cs))
  | none =>
    sessionDequeuePhase settings device_facts oracle approvals iFuel nInt s
      s.action_plan_history s.appendLog s.current_step_index none

/-- Run the orchestrator loop for at most `fuel` cycles. -/
def runSession (settings : Settings) (device_facts : DeviceFacts)
    (oracle : Nat → ActionAnalysisReport) (approvals : Nat → String) :
    Nat → Nat → SessionState → SessionOutcome
  | 0, _, s => .outOfFuel s
  | fuel + 1, nInt, s =>
    match sessionCycle settings device_facts oracle approvals (fuel + 1)
        nInt s with
    | .inl o => o
    | .inr (nInt2, s2) =>
      runSession settings device_facts oracle approvals fuel nInt2 s2

/-- The session state right after `run_action_planner_node` installed the
plan (`action_plan_remaining := plan`, `action_plan_history := []`,
`current_step_index := 0`, no current step). -/
def initialSession (plan : List TroubleshootingStep) : SessionState :=
  ⟨[], plan, none, 0, 0, [], []⟩

/-! ### Concrete fixtures used by witnesses and counterexamples -/

/-- An analyzer verdict of continue with no plan replacement. -/
def contReport : ActionAnalysisReport :=
  .mk "Output nominal" [] "continue" "keep going" none

/-- A simple diagnostic step that needs no approval. -/
def stepD (n : Nat) : TroubleshootingStep :=
  .mk ("diagnostic step " ++ toString n) .diagnostic ["show interfaces"]
    "interfaces up" false none

/-- A config step that requires approval. -/
def stepCfg : TroubleshootingStep :=
  .mk "apply fix" .config ["configure terminal"] "config accepted" true none

/-- An escalation-type step that also has requires_approval set. -/
def stepEsc : TroubleshootingStep :=
  .mk "hand off to a human" .escalation [] "" true none

/-- Settings with a given max_steps and adaptive_mode present. -/
def settingsN (n : Nat) : Settings := ⟨some n, some true⟩

/-- Settings with adaptive_mode explicitly false. -/
def settingsNoAdapt : Settings := ⟨some 15, some false⟩

/-- Device facts of a reachable device. -/
def reachableFacts : DeviceFacts := [("reachable", true)]

/-- Device facts with no "reachable" key at all. -/
def keylessFacts : DeviceFacts := [("hostname", true)]

/-- An analyzer oracle that always reports continue. -/
def oracleCont : Nat → ActionAnalysisReport := fun _ => contReport

/-- An approval-response oracle that never answers validly. -/
def approvalsNone : Nat → String := fun _ => ""

/-- A replacement plan returned by the analyzer. -/
def replacementPlan : List TroubleshootingStep := [stepD 7, stepD 8]

/-- A new_action verdict carrying a replacement plan. -/
def newActionReport : ActionAnalysisReport :=
  .mk "plan change needed" [] "new_action" "observed a different fault"
    (some replacementPlan)

/-- A new_action verdict whose replacement plan starts with the step
that was just executed (stepD 1). -/
def dupHeadReport : ActionAnalysisReport :=
  .mk "redo the step" [] "new_action" "retry the same check"
    (some [stepD 1, stepD 9])

/-- The synthetic report the router attaches on user rejection. -/
def rejectedReport : ActionAnalysisReport :=
  .mk "No analysis performed due to action being rejected by user." []
    "escalate" "Action rejected by user." none

/-- The synthetic report the router attaches to an escalation-type step. -/
def escalationReport : ActionAnalysisReport :=
  .mk "No analysis performed due to escalation" [] "escalate" "" none

/-- Whether `needle` occurs inside `hay` (used to state that a reason
string mentions a word). -/
def mentionsWord (hay needle : String) : Bool :=
  decide (needle.data <:+: hay.data)

/-! ### Helper lemmas -/

lemma withReport_analysis_report (cs : TroubleshootingStep)
    (r : Option ActionAnalysisReport) :
    (cs.withReport r).analysis_report = r := by
  cases cs; rfl

lemma chain_lt_append_singleton {l : List Nat} {a : Nat}
    (h : l.Chain' (· < ·)) (hb : ∀ x ∈ l, x < a) :
    (l ++ [a]).Chain' (· < ·) := by
  rw [List.chain'_append]
  refine ⟨h, List.chain'_singleton a, ?_⟩
  intro x hx y hy
  simp only [List.head?_cons, Option.mem_def, Option.some.injEq] at hy
  subst hy
  obtain ⟨hne, rfl⟩ := List.mem_getLast?_eq_getLast hx
  exact hb _ (List.getLast_mem hne)

lemma devFactsGet_of_no_key {d : DeviceFacts} {k : String}
    (h : ∀ p ∈ d, p.1 ≠ k) (default : Bool) :
    devFactsGet d k default = default := by
  unfold devFactsGet
  have : d.find? (fun p => p.1 == k) = none := by
    rw [List.find?_eq_none]
    intro p hp
    simpa using h p hp
  rw [this]

/-! ### Claim C1: budget overflow -/

/-- Claim C1.  When the router ingests a non-terminal verdict and the
incremented counter exceeds max_steps, the code attempts to synthesize an
escalation report but calls `ActionAnalysisReport(analysis=[...])` with a
list for the str-typed `analysis` field: pydantic raises a
ValidationError out of the router instead of completing the escalation.
Evaluated here at max_steps = 1 with the second executed step reporting
continue. -/
theorem router_budget_overflow_raises_validation_error :
    run_action_router_node (settingsN 1) reachableFacts
      ⟨[stepD 1], [stepD 3], some ((stepD 2).withReport (some contReport)), 1⟩
      [] =
    .exn analysisTypeError := rfl

/-! ### Claim C2: adaptive-mode gating -/

/-- Counterexample to claim C2: with `adaptive_mode = false` in settings,
an analyzer result with verdict new_action and a non-empty
`updated_action_plan_remaining` is applied as the plan replacement by the
analyzer node, and the verdict stored on the step is still new_action —
nothing in the code downgrades it. -/
theorem adaptive_mode_false_replacement_still_applied :
    settingsNoAdapt.adaptive_mode = some false ∧
    newActionReport.next_action_type = "new_action" ∧
    (run_action_analyzer_node settingsNoAdapt [stepD 2, stepD 3] (stepD 1)
      newActionReport).2 = replacementPlan ∧
    ((run_action_analyzer_node settingsNoAdapt [stepD 2, stepD 3] (stepD 1)
      newActionReport).1).analysis_report = some newActionReport :=
  ⟨rfl, rfl, rfl, rfl⟩

/-- Claim C2 as amended: the workflow code never consults
`adaptive_mode` (the downgrade is only requested in the analyzer LLM
prompt): the analyzer node installs any non-empty
`updated_action_plan_remaining` as the new remaining plan for every
settings value, and its result does not depend on settings at all. -/
theorem analyzer_node_ignores_adaptive_mode
    (st st' : Settings) (rem : List TroubleshootingStep)
    (cs : TroubleshootingStep) (rpt : ActionAnalysisReport)
    (l : List TroubleshootingStep)
    (hupd : rpt.updated_action_plan_remaining = some l) (hne : l ≠ []) :
    (run_action_analyzer_node st rem cs rpt).2 = l ∧
    run_action_analyzer_node st rem cs rpt =
      run_action_analyzer_node st' rem cs rpt := by
  constructor
  · unfold run_action_analyzer_node
    rw [hupd]
    simp [List.isEmpty_iff, hne]
  · rfl

/-- Witness for `analyzer_node_ignores_adaptive_mode` at adaptive_mode
explicitly false. -/
theorem analyzer_node_ignores_adaptive_mode_witness :
    (run_action_analyzer_node settingsNoAdapt [stepD 2] (stepD 1)
      newActionReport).2 = replacementPlan ∧
    run_action_analyzer_node settingsNoAdapt [stepD 2] (stepD 1)
      newActionReport =
      run_action_analyzer_node (settingsN 15) [stepD 2] (stepD 1)
        newActionReport :=
  analyzer_node_ignores_adaptive_mode settingsNoAdapt (settingsN 15)
    [stepD 2] (stepD 1) newActionReport replacementPlan rfl
    (by simp [replacementPlan])

/-! ### Claim C4: leading-duplicate defense -/

/-- Counterexample to claim C4: when the analyzer returns a replacement
plan whose head is the just-executed step (stepD 1), the installed
remaining plan still contains that step at its head — no defensive drop
of the leading duplicate exists. -/
theorem leading_duplicate_not_dropped :
    (run_action_analyzer_node (settingsN 15) [stepD 2] (stepD 1)
      dupHeadReport).2 = [stepD 1, stepD 9] ∧
    ((run_action_analyzer_node (settingsN 15) [stepD 2] (stepD 1)
      dupHeadReport).2).head? = some (stepD 1) :=
  ⟨rfl, rfl⟩

/-- Claim C4 as amended: the replacement plan is installed verbatim; in
particular a replacement whose head is the just-executed step is applied
unchanged, so that step would be dispatched again. -/
theorem replacement_installed_verbatim
    (st : Settings) (rem : List TroubleshootingStep)
    (cs : TroubleshootingStep) (rpt : ActionAnalysisReport)
    (tail : List TroubleshootingStep)
    (hupd : rpt.updated_action_plan_remaining = some (cs :: tail)) :
    (run_action_analyzer_node st rem cs rpt).2 = cs :: tail := by
  unfold run_action_analyzer_node
  rw [hupd]
  simp

/-- Witness for `replacement_installed_verbatim`. -/
theorem replacement_installed_verbatim_witness :
    (run_action_analyzer_node (settingsN 15) [stepD 2] (stepD 1)
      dupHeadReport).2 = stepD 1 :: [stepD 9] :=
  replacement_installed_verbatim (settingsN 15) [stepD 2] (stepD 1)
    dupHeadReport [stepD 9] rfl

/-! ### Single-cycle router lemmas -/

lemma no_not_yes {t : String} (h : t ∈ no_responses) : t ∉ yes_responses := by
  simp only [no_responses, List.mem_cons, List.not_mem_nil, or_false] at h
  rcases h with rfl | rfl | rfl | rfl | rfl <;> decide

lemma mkRejected_eq :
    mkActionAnalysisReport rejectionReportArgs.1 rejectionReportArgs.2.1
      rejectionReportArgs.2.2.1 rejectionReportArgs.2.2.2 none =
    .ok rejectedReport := rfl

lemma mkEscalation_eq :
    mkActionAnalysisReport (.str "No analysis performed due to escalation")
      [] "escalate" "" none =
    .ok escalationReport := rfl

/-- The dequeue phase on an escalation-type head: synthetic escalate
report, immediate history append, route to the result summary, zero
interrupts, no dispatch — for every cycle that reaches the phase,
whatever the ingestion block did before. -/
lemma phase_intercepts_escalation_step
    (device_facts : DeviceFacts) (state : RouterInputState)
    (hist : List TroubleshootingStep) (idx : Nat)
    (cur : Option TroubleshootingStep) (rs : List String)
    (s : TroubleshootingStep) (rest : List TroubleshootingStep)
    (hrem : state.action_plan_remaining = s :: rest)
    (hreach : devFactsGet device_facts "reachable" false = true)
    (htype : s.action_type = .escalation) :
    routerDequeuePhase device_facts state hist idx cur rs =
    .ok ⟨hist ++ [s.withReport (some escalationReport)], rest,
      some (s.withReport (some escalationReport)), idx,
      .result_summary, 0⟩ := by
  simp [routerDequeuePhase, hrem, hreach, htype, mkEscalation_eq]

/-- The router node's behaviour on a dequeued escalation-type step when
no analyzed step is being ingested. -/
lemma router_intercepts_escalation_step
    (settings : Settings) (device_facts : DeviceFacts)
    (h0 rest : List TroubleshootingStep) (s : TroubleshootingStep)
    (idx : Nat) (rs : List String)
    (hreach : devFactsGet device_facts "reachable" false = true)
    (htype : s.action_type = .escalation) :
    run_action_router_node settings device_facts ⟨h0, s :: rest, none, idx⟩
      rs =
    .ok ⟨h0 ++ [s.withReport (some escalationReport)], rest,
      some (s.withReport (some escalationReport)), idx,
      .result_summary, 0⟩ :=
  phase_intercepts_escalation_step device_facts ⟨h0, s :: rest, none, idx⟩
    h0 idx none rs s rest rfl hreach htype

/-- The dequeue phase on a head step requiring approval when the first
human response normalizes into the reject-set. -/
lemma phase_rejects_step
    (device_facts : DeviceFacts) (state : RouterInputState)
    (hist : List TroubleshootingStep) (idx : Nat)
    (cur : Option TroubleshootingStep) (s : TroubleshootingStep)
    (rest : List TroubleshootingStep) (r : String) (rs : List String)
    (hrem : state.action_plan_remaining = s :: rest)
    (hreach : devFactsGet device_facts "reachable" false = true)
    (htype : s.action_type ≠ .escalation)
    (happr : s.requires_approval = true)
    (hno : normalizeResponse r ∈ no_responses) :
    routerDequeuePhase device_facts state hist idx cur (r :: rs) =
    .ok ⟨hist ++ [s.withReport (some rejectedReport)], rest,
      some (s.withReport (some rejectedReport)), idx,
      .result_summary, 1⟩ := by
  have hnyes : normalizeResponse r ∉ yes_responses := no_not_yes hno
  simp only [routerDequeuePhase, approvalLoop, hrem, hreach, happr,
    Bool.not_true, Bool.false_eq_true, if_false, if_true, if_neg htype,
    if_neg hnyes, if_pos hno, mkRejected_eq]

/-! ### Claim C6: user rejection -/

/-- Claim C6.  Whenever a cycle reaches the dequeue phase and the head
step requires approval and the (normalized) human response is in the
reject-set, the router attaches the synthetic escalate report whose
reason mentions rejection, appends the step once to the history built so
far, and routes to the result summary leaving the steps after it
unchanged; instantiated at the node level for a cycle with no in-flight
step (hence rejecting step 1 leaves exactly the one history entry and
the original tail). -/
theorem rejected_step_escalates :
    (∀ (device_facts : DeviceFacts) (state : RouterInputState)
      (hist : List TroubleshootingStep) (idx : Nat)
      (cur : Option TroubleshootingStep) (s : TroubleshootingStep)
      (rest : List TroubleshootingStep) (r : String) (rs : List String),
      state.action_plan_remaining = s :: rest →
      devFactsGet device_facts "reachable" false = true →
      s.action_type ≠ .escalation →
      s.requires_approval = true →
      normalizeResponse r ∈ no_responses →
      routerDequeuePhase device_facts state hist idx cur (r :: rs) =
      .ok ⟨hist ++ [s.withReport (some rejectedReport)], rest,
        some (s.withReport (some rejectedReport)), idx,
        .result_summary, 1⟩) ∧
    (∀ (settings : Settings) (device_facts : DeviceFacts)
      (h0 rest : List TroubleshootingStep) (s : TroubleshootingStep)
      (r : String) (rs : List String) (idx : Nat),
      devFactsGet device_facts "reachable" false = true →
      s.action_type ≠ .escalation →
      s.requires_approval = true →
      normalizeResponse r ∈ no_responses →
      run_action_router_node settings device_facts
        ⟨h0, s :: rest, none, idx⟩ (r :: rs) =
      .ok ⟨h0 ++ [s.withReport (some rejectedReport)], rest,
        some (s.withReport (some rejectedReport)), idx,
        .result_summary, 1⟩) ∧
    rejectedReport.next_action_type = "escalate" ∧
    mentionsWord rejectedReport.next_action_reason "rejected" = true := by
  refine ⟨?_, ?_, rfl, by decide⟩
  · intro device_facts state hist idx cur s rest r rs hrem hreach htype
      happr hno
    exact phase_rejects_step device_facts state hist idx cur s rest r rs
      hrem hreach htype happr hno
  · intro settings device_facts h0 rest s r rs idx hreach htype happr hno
    exact phase_rejects_step device_facts ⟨h0, s :: rest, none, idx⟩ h0
      idx none s rest r rs rfl hreach htype happr hno

/-- Witness for `rejected_step_escalates`: rejecting step 1 of a 2-step
plan leaves exactly one history entry and the tail untouched. -/
theorem rejected_step_escalates_witness :
    run_action_router_node (settingsN 15) reachableFacts
      ⟨[], [stepCfg, stepD 2], none, 0⟩ ["no"] =
    .ok ⟨[stepCfg.withReport (some rejectedReport)], [stepD 2],
      some (stepCfg.withReport (some rejectedReport)), 0,
      .result_summary, 1⟩ :=
  rejected_step_escalates.2.1 (settingsN 15) reachableFacts [] [stepD 2]
    stepCfg "no" [] 0 rfl (by decide) rfl (by decide)

/-! ### Claim C8: plan exhaustion -/

/-- Whether a router result is a normal `Command` routed to the result
summary. -/
def RouterResult.isTerminalRoute : RouterResult → Bool
  | .ok o =>
    match o.goto with
    | .result_summary => true
    | .action_executor => false
  | _ => false

/-- The condition under which the ingestion block enters its
budget-enforcement branch. -/
def budgetViolation (settings : Settings) (state : RouterInputState) :
    Prop :=
  ∃ cs rpt, state.current_step = some cs ∧
    cs.analysis_report = some rpt ∧
    rpt.next_action_type ≠ "escalate" ∧
    rpt.next_action_type ≠ "resolve" ∧
    settings.get_max_steps < state.current_step_index + 1

/-- Claim C8.  A router cycle with an empty remaining plan that does not
trip the budget check always routes to the result summary; and the
concrete scenario: a plan of 3 diagnostic steps with max_steps = 15 and
every analysis reporting continue with no replan terminates normally
with exactly 3 history entries and nothing remaining. -/
theorem plan_exhaustion_terminates :
    (∀ (settings : Settings) (device_facts : DeviceFacts)
      (state : RouterInputState) (rs : List String),
      state.action_plan_remaining = [] →
      ¬ budgetViolation settings state →
      (run_action_router_node settings device_facts state rs).isTerminalRoute
        = true) ∧
    (runSession (settingsN 15) reachableFacts oracleCont approvalsNone 10 0
      (initialSession [stepD 1, stepD 2, stepD 3])).isTerminated = true ∧
    (runSession (settingsN 15) reachableFacts oracleCont approvalsNone 10 0
      (initialSession
        [stepD 1, stepD 2, stepD 3])).state.action_plan_history.length =
      3 ∧
    (runSession (settingsN 15) reachableFacts oracleCont approvalsNone 10 0
      (initialSession
        [stepD 1, stepD 2, stepD 3])).state.action_plan_remaining = [] := by
  refine ⟨?_, rfl, rfl, rfl⟩
  intro settings device_facts state rs hrem hnb
  obtain ⟨h0, rem, cur, idx⟩ := state
  simp only at hrem
  subst hrem
  match hcur : cur with
  | none =>
    simp [run_action_router_node, routerDequeuePhase,
      RouterResult.isTerminalRoute]
  | some cs =>
    match hrep : cs.analysis_report with
    | none =>
      simp [run_action_router_node, routerDequeuePhase, hrep,
        RouterResult.isTerminalRoute]
    | some rpt =>
      by_cases hesc : rpt.next_action_type = "escalate"
      · simp [run_action_router_node, hrep, hesc,
          RouterResult.isTerminalRoute]
      · by_cases hres : rpt.next_action_type = "resolve"
        · simp [run_action_router_node, hrep, hesc, hres,
            RouterResult.isTerminalRoute]
        · have hle : idx + 1 ≤ settings.get_max_steps := by
            by_contra hgt
            exact hnb ⟨cs, rpt, rfl, hrep, hesc, hres,
              show settings.get_max_steps < idx + 1 by omega⟩
          simp [run_action_router_node, routerDequeuePhase, hrep, hesc,
            hres, Nat.not_lt.mpr hle, RouterResult.isTerminalRoute]

/-- Witness for the universally quantified part of
`plan_exhaustion_terminates`. -/
theorem plan_exhaustion_terminates_witness :
    (run_action_router_node (settingsN 15) reachableFacts
      ⟨[stepD 1], [], none, 0⟩ []).isTerminalRoute = true :=
  plan_exhaustion_terminates.1 (settingsN 15) reachableFacts
    ⟨[stepD 1], [], none, 0⟩ [] rfl
    (by rintro ⟨cs, rpt, hcs, _⟩; simp at hcs)

/-! ### Claim C9: missing reachable key -/

/-- The dequeue phase when "reachable" is absent from the device facts:
the lookup defaults to false and the cycle ends at the reachability
gate, leaving the remaining plan and current step untouched. -/
lemma phase_unreachable_on_missing_key
    (device_facts : DeviceFacts) (state : RouterInputState)
    (hist : List TroubleshootingStep) (idx : Nat)
    (cur : Option TroubleshootingStep) (rs : List String)
    (s : TroubleshootingStep) (rest : List TroubleshootingStep)
    (hrem : state.action_plan_remaining = s :: rest)
    (hkey : ∀ p ∈ device_facts, p.1 ≠ "reachable") :
    routerDequeuePhase device_facts state hist idx cur rs =
    .ok ⟨hist, s :: rest, cur, idx, .result_summary, 0⟩ := by
  have hfalse : devFactsGet device_facts "reachable" false = false :=
    devFactsGet_of_no_key hkey false
  simp only [routerDequeuePhase, hrem, hfalse, Bool.not_false, if_true]

/-- Claim C9.  When `device_facts` has no "reachable" key at all, the
`get` defaults to false: every cycle reaching the reachability gate with
a non-empty remaining plan routes to the result summary without
dequeuing or dispatching anything; instantiated at the node level for a
cycle with no in-flight step. -/
theorem missing_reachable_key_terminates :
    (∀ (device_facts : DeviceFacts) (state : RouterInputState)
      (hist : List TroubleshootingStep) (idx : Nat)
      (cur : Option TroubleshootingStep) (rs : List String)
      (s : TroubleshootingStep) (rest : List TroubleshootingStep),
      state.action_plan_remaining = s :: rest →
      (∀ p ∈ device_facts, p.1 ≠ "reachable") →
      routerDequeuePhase device_facts state hist idx cur rs =
      .ok ⟨hist, s :: rest, cur, idx, .result_summary, 0⟩) ∧
    (∀ (settings : Settings) (device_facts : DeviceFacts)
      (h0 rest : List TroubleshootingStep) (s : TroubleshootingStep)
      (idx : Nat) (rs : List String),
      (∀ p ∈ device_facts, p.1 ≠ "reachable") →
      run_action_router_node settings device_facts
        ⟨h0, s :: rest, none, idx⟩ rs =
      .ok ⟨h0, s :: rest, none, idx, .result_summary, 0⟩) := by
  constructor
  · intro device_facts state hist idx cur rs s rest hrem hkey
    exact phase_unreachable_on_missing_key device_facts state hist idx cur
      rs s rest hrem hkey
  · intro settings device_facts h0 rest s idx rs hkey
    exact phase_unreachable_on_missing_key device_facts
      ⟨h0, s :: rest, none, idx⟩ h0 idx none rs s rest rfl hkey

/-- Witness for `missing_reachable_key_terminates`. -/
theorem missing_reachable_key_terminates_witness :
    run_action_router_node (settingsN 15) keylessFacts
      ⟨[], [stepD 1], none, 0⟩ [] =
    .ok ⟨[], [stepD 1], none, 0, .result_summary, 0⟩ :=
  missing_reachable_key_terminates.2 (settingsN 15) keylessFacts [] []
    (stepD 1) 0 []
    (by intro p hp
        simp only [keylessFacts, List.mem_singleton] at hp
        subst hp
        decide)

/-! ### Claim C10: escalation check precedes approval gate -/

/-- Claim C10.  A dequeued escalation-type step that also has
requires_approval set is intercepted by the escalation-type check before
the approval gate: in every cycle reaching the dequeue phase the router
routes to the result summary with zero interrupts raised (the outcome's
interrupt count is 0), regardless of what responses would be available;
instantiated at the node level for a cycle with no in-flight step. -/
theorem escalation_step_skips_approval :
    (∀ (device_facts : DeviceFacts) (state : RouterInputState)
      (hist : List TroubleshootingStep) (idx : Nat)
      (cur : Option TroubleshootingStep) (rs : List String)
      (s : TroubleshootingStep) (rest : List TroubleshootingStep),
      state.action_plan_remaining = s :: rest →
      devFactsGet device_facts "reachable" false = true →
      s.action_type = .escalation →
      s.requires_approval = true →
      routerDequeuePhase device_facts state hist idx cur rs =
      .ok ⟨hist ++ [s.withReport (some escalationReport)], rest,
        some (s.withReport (some escalationReport)), idx,
        .result_summary, 0⟩) ∧
    (∀ (settings : Settings) (device_facts : DeviceFacts)
      (h0 rest : List TroubleshootingStep) (s : TroubleshootingStep)
      (idx : Nat) (rs : List String),
      devFactsGet device_facts "reachable" false = true →
      s.action_type = .escalation →
      s.requires_approval = true →
      run_action_router_node settings device_facts
        ⟨h0, s :: rest, none, idx⟩ rs =
      .ok ⟨h0 ++ [s.withReport (some escalationReport)], rest,
        some (s.withReport (some escalationReport)), idx,
        .result_summary, 0⟩) := by
  constructor
  · intro device_facts state hist idx cur rs s rest hrem hreach htype _
    exact phase_intercepts_escalation_step device_facts state hist idx cur
      rs s rest hrem hreach htype
  · intro settings device_facts h0 rest s idx rs hreach htype _
    exact router_intercepts_escalation_step settings device_facts h0 rest
      s idx rs hreach htype

/-- Witness for `escalation_step_skips_approval` on a step with both
escalation type and the approval flag. -/
theorem escalation_step_skips_approval_witness :
    run_action_router_node (settingsN 15) reachableFacts
      ⟨[], [stepEsc, stepD 2], none, 0⟩ ["yes"] =
    .ok ⟨[stepEsc.withReport (some escalationReport)], [stepD 2],
      some (stepEsc.withReport (some escalationReport)), 0,
      .result_summary, 0⟩ :=
  escalation_step_skips_approval.2 (settingsN 15) reachableFacts []
    [stepD 2] stepEsc 0 ["yes"] rfl rfl rfl

/-! ### Trace invariants -/

/-- The current step is absent or not yet analyzed. -/
def noPending (s : SessionState) : Prop :=
  match s.current_step with
  | none => True
  | some (_, cs) => cs.analysis_report = none

/-- The invariant maintained by the orchestrator loop between cycles
(stated over the trace bookkeeping fields): the step counter never
exceeds max_steps, the number of dispatches is bounded by the counter,
no dispatched step is escalation-typed, and the append log is strictly
increasing and below the dispatch counter, with the serial of the
in-flight step above everything logged. -/
def SessionInv (N : Nat) (s : SessionState) : Prop :=
  s.current_step_index ≤ N ∧
  s.nDispatched ≤ s.current_step_index + 1 ∧
  (noPending s → s.nDispatched ≤ s.current_step_index) ∧
  s.dispatched.length = s.nDispatched ∧
  (∀ st ∈ s.dispatched, st.action_type ≠ ActionType.escalation) ∧
  s.appendLog.Chain' (· < ·) ∧
  (∀ x ∈ s.appendLog, x < s.nDispatched) ∧
  (∀ ser cs, s.current_step = some (ser, cs) →
    (∀ x ∈ s.appendLog, x < ser) ∧ ser ≤ s.nDispatched ∧
    (cs.analysis_report ≠ none → ser < s.nDispatched)) ∧
  s.action_plan_history.length = s.appendLog.length

/-- Properties of the state a finished run ends in. -/
def SessionFinal (N : Nat) (o : SessionOutcome) : Prop :=
  o.state.nDispatched ≤ N + 1 ∧
  o.state.dispatched.length = o.state.nDispatched ∧
  (∀ st ∈ o.state.dispatched, st.action_type ≠ ActionType.escalation) ∧
  o.state.appendLog.Chain' (· < ·) ∧
  o.state.action_plan_history.length = o.state.appendLog.length

/-- Postcondition of one cycle: final outcomes satisfy `SessionFinal`,
continuing states satisfy `SessionInv`. -/
def PhasePost (N : Nat) : SessionOutcome ⊕ (Nat × SessionState) → Prop
  | .inl o => SessionFinal N o
  | .inr (_, s2) => SessionInv N s2

lemma run_action_analyzer_node_fst (st : Settings)
    (rem : List TroubleshootingStep) (cs : TroubleshootingStep)
    (rpt : ActionAnalysisReport) :
    (run_action_analyzer_node st rem cs rpt).1 = cs.withReport (some rpt) :=
  rfl

/-- The invariant holds for the state built at a dispatch: the serial of
the in-flight step is the previous dispatch count, the analyzer has
attached a report to it, and the bookkeeping lists grew accordingly. -/
lemma sessionInv_dispatched (N idx ser : Nat)
    (hist rem : List TroubleshootingStep) (st2 : TroubleshootingStep)
    (disp : List TroubleshootingStep) (lg : List Nat)
    (hidx : idx ≤ N) (hnd : ser ≤ idx)
    (hdl : disp.length = ser + 1)
    (hdne : ∀ st ∈ disp, st.action_type ≠ ActionType.escalation)
    (hch : lg.Chain' (· < ·))
    (hbound : ∀ x ∈ lg, x < ser)
    (hlen : hist.length = lg.length)
    (hrep : st2.analysis_report ≠ none) :
    SessionInv N ⟨hist, rem, some (ser, st2), idx, ser + 1, disp, lg⟩ := by
  refine ⟨hidx, ?_, ?_, hdl, hdne, hch, ?_, ?_, hlen⟩
  · show ser + 1 ≤ idx + 1
    omega
  · intro hnp
    have hnp2 : st2.analysis_report = none := hnp
    exact absurd hnp2 hrep
  · intro x hx
    have hx2 : x ∈ lg := hx
    show x < ser + 1
    exact Nat.lt_succ_of_lt (hbound x hx2)
  · intro ser2 cs2 hsc
    have hsc2 : (some (ser, st2) : Option (Nat × TroubleshootingStep)) =
        some (ser2, cs2) := hsc
    simp only [Option.some.injEq, Prod.mk.injEq] at hsc2
    obtain ⟨rfl, rfl⟩ := hsc2
    refine ⟨?_, ?_, ?_⟩
    · intro x hx
      exact hbound x hx
    · show ser ≤ ser + 1
      exact Nat.le_succ _
    · intro _
      show ser < ser + 1
      exact Nat.lt_succ_self _

lemma sessionDequeuePhase_post (settings : Settings)
    (device_facts : DeviceFacts) (oracle : Nat → ActionAnalysisReport)
    (approvals : Nat → String) (iFuel nInt : Nat) (s : SessionState)
    (hist : List TroubleshootingStep) (lg : List Nat) (idx : Nat)
    (cur : Option (Nat × TroubleshootingStep))
    (hidx : idx ≤ settings.get_max_steps)
    (hnd : s.nDispatched ≤ idx)
    (hdl : s.dispatched.length = s.nDispatched)
    (hdne : ∀ st ∈ s.dispatched, st.action_type ≠ ActionType.escalation)
    (hch : lg.Chain' (· < ·))
    (hbound : ∀ x ∈ lg, x < s.nDispatched)
    (hlen : hist.length = lg.length) :
    PhasePost settings.get_max_steps
      (sessionDequeuePhase settings device_facts oracle approvals iFuel
        nInt s hist lg idx cur) := by
  have hfin : s.nDispatched ≤ settings.get_max_steps + 1 := by omega
  have hdisp : ∀ (cs : TroubleshootingStep)
      (rest : List TroubleshootingStep) (n : Nat),
      cs.action_type ≠ ActionType.escalation →
      SessionInv settings.get_max_steps
        { action_plan_history := hist
          action_plan_remaining :=
            (run_action_analyzer_node settings rest cs
              (oracle s.nDispatched)).2
          current_step := some (s.nDispatched,
            (run_action_analyzer_node settings rest cs
              (oracle s.nDispatched)).1)
          current_step_index := idx
          nDispatched := s.nDispatched + 1
          dispatched := s.dispatched ++ [cs]
          appendLog := lg } := by
    intro cs rest n hesc
    refine sessionInv_dispatched settings.get_max_steps idx s.nDispatched
      hist _ _ _ lg hidx hnd (by simp [hdl]) ?_ hch hbound hlen ?_
    · intro st hst
      rcases List.mem_append.mp hst with hold | hnew
      · exact hdne st hold
      · rw [List.mem_singleton] at hnew
        subst hnew
        exact hesc
    · rw [run_action_analyzer_node_fst, withReport_analysis_report]
      simp
  unfold sessionDequeuePhase
  split
  · -- remaining plan empty: terminated
    exact ⟨hfin, hdl, hdne, hch, hlen⟩
  · -- remaining plan cs :: rest
    split
    · -- unreachable: terminated
      exact ⟨hfin, hdl, hdne, hch, hlen⟩
    · split
      · -- escalation-type step intercepted
        split
        · -- constructor error: crashed
          exact ⟨hfin, hdl, hdne, hch, hlen⟩
        · -- synthetic report attached, appended once, terminated
          refine ⟨hfin, hdl, hdne, chain_lt_append_singleton hch hbound, ?_⟩
          simp [SessionOutcome.state, hlen]
      · split
        · -- approval required
          split
          · -- responses exhausted: suspended
            exact ⟨hfin, hdl, hdne, hch, hlen⟩
          · -- rejected: synthetic report, appended once, terminated
            split
            · exact ⟨hfin, hdl, hdne, hch, hlen⟩
            · refine ⟨hfin, hdl, hdne,
                chain_lt_append_singleton hch hbound, ?_⟩
              simp [SessionOutcome.state, hlen]
          · -- approved: dispatch
            rename_i hesc _ _ _ _
            exact hdisp _ _ nInt hesc
        · -- no approval needed: dispatch
          rename_i hesc _
          exact hdisp _ _ nInt hesc

lemma sessionCycle_post (settings : Settings) (device_facts : DeviceFacts)
    (oracle : Nat → ActionAnalysisReport) (approvals : Nat → String)
    (iFuel nInt : Nat) (s : SessionState)
    (h : SessionInv settings.get_max_steps s) :
    PhasePost settings.get_max_steps
      (sessionCycle settings device_facts oracle approvals iFuel nInt s) :=
  by
  obtain ⟨h1, h2, h3, h4, h5, h6, h7, h8, h9⟩ := h
  unfold sessionCycle
  dsimp only
  split
  · -- current step present
    rename_i ser cs hcs
    split
    · -- analysis report present: ingestion appends, then branch
      rename_i rpt hrep
      obtain ⟨hlog_ser, hser_le, hser_lt⟩ := h8 ser cs hcs
      have hlt : ser < s.nDispatched := hser_lt (by rw [hrep]; simp)
      have hch2 : (s.appendLog ++ [ser]).Chain' (· < ·) :=
        chain_lt_append_singleton h6 hlog_ser
      have hlen2 : (s.action_plan_history ++ [cs]).length =
          (s.appendLog ++ [ser]).length := by simp [h9]
      have hfin : s.nDispatched ≤ settings.get_max_steps + 1 := by omega
      split
      · -- verdict escalate: terminated
        exact ⟨hfin, h4, h5, hch2, hlen2⟩
      · split
        · -- verdict resolve: terminated
          exact ⟨hfin, h4, h5, hch2, hlen2⟩
        · split
          · -- counter exceeds max_steps
            split
            · -- constructor raises: crashed with the ingestion append
              exact ⟨hfin, h4, h5, hch2, hlen2⟩
            · -- unreachable in the code: the constructor always fails
              -- on a list-valued analysis
              rename_i heq
              simp [mkActionAnalysisReport] at heq
          · -- counter within budget: fall through to the dequeue phase
            rename_i hgt
            refine sessionDequeuePhase_post settings device_facts oracle
              approvals iFuel nInt s _ _ _ _ (by omega) (by omega) h4 h5
              hch2 ?_ hlen2
            intro x hx
            rcases List.mem_append.mp hx with hold | hnew
            · exact h7 x hold
            · rw [List.mem_singleton] at hnew
              subst hnew
              exact hlt
    · -- no analysis report on the current step
      rename_i hrep
      have hnp : noPending s := by
        unfold noPending
        rw [hcs]
        exact hrep
      exact sessionDequeuePhase_post settings device_facts oracle approvals
        iFuel nInt s _ _ _ _ h1 (h3 hnp) h4 h5 h6 h7 h9
  · -- no current step
    rename_i hcs
    have hnp : noPending s := by
      unfold noPending
      rw [hcs]
      trivial
    exact sessionDequeuePhase_post settings device_facts oracle approvals
      iFuel nInt s _ _ _ _ h1 (h3 hnp) h4 h5 h6 h7 h9

lemma runSession_post (settings : Settings) (device_facts : DeviceFacts)
    (oracle : Nat → ActionAnalysisReport) (approvals : Nat → String) :
    ∀ (fuel nInt : Nat) (s : SessionState),
      SessionInv settings.get_max_steps s →
      SessionFinal settings.get_max_steps
        (runSession settings device_facts oracle approvals fuel nInt s)
  | 0, _, s, h => by
    obtain ⟨h1, h2, _, h4, h5, h6, _, _, h9⟩ := h
    refine ⟨?_, h4, h5, h6, h9⟩
    show s.nDispatched ≤ settings.get_max_steps + 1
    omega
  | fuel + 1, nInt, s, h => by
    have hc := sessionCycle_post settings device_facts oracle approvals
      (fuel + 1) nInt s h
    unfold runSession
    split
    · rename_i o heq
      rw [heq] at hc
      exact hc
    · rename_i nInt2 s2 heq
      rw [heq] at hc
      exact runSession_post settings device_facts oracle approvals fuel
        nInt2 s2 hc

lemma initialSession_inv (N : Nat) (plan : List TroubleshootingStep) :
    SessionInv N (initialSession plan) := by
  refine ⟨Nat.zero_le _, ?_, fun _ => Nat.le_refl 0, rfl, ?_, ?_, ?_, ?_,
    rfl⟩
  · exact Nat.zero_le _
  · intro st hst
    have hst2 : st ∈ ([] : List TroubleshootingStep) := hst
    simp at hst2
  · show ([] : List Nat).Chain' (· < ·)
    simp
  · intro x hx
    have hx2 : x ∈ ([] : List Nat) := hx
    simp at hx2
  · intro ser cs hsc
    have hsc2 : (none : Option (Nat × TroubleshootingStep)) =
        some (ser, cs) := hsc
    simp at hsc2

/-! ### Claim C3: history append-once -/

/-- Counterexample trace for claim C3: with max_steps = 1 and every
analysis reporting continue, the step that hits budget overflow (the
second one) does not land in history with a synthetic escalate report —
the cycle crashes with a pydantic ValidationError first, and both history
entries still carry their original continue reports. -/
theorem budget_overflow_step_has_no_synthetic_report :
    (runSession (settingsN 1) reachableFacts oracleCont approvalsNone 10 0
      (initialSession [stepD 1, stepD 2, stepD 3])).isCrashed = true ∧
    (runSession (settingsN 1) reachableFacts oracleCont approvalsNone 10 0
      (initialSession
        [stepD 1, stepD 2, stepD 3])).state.action_plan_history.map
        (fun e => e.analysis_report.map ActionAnalysisReport.next_action_type)
      = [some "continue", some "continue"] :=
  ⟨rfl, rfl⟩

/-- Claim C3 as amended: across every session trace no step instance is
appended to `action_plan_history` more than once — the append log of
dispatch serials is strictly increasing and there is exactly one log
entry per history entry.  (Rejected and escalation-type steps land once
with a synthetic report; a budget-overflow cycle raises before its
synthetic report is attached.) -/
theorem history_append_once (settings : Settings)
    (device_facts : DeviceFacts) (oracle : Nat → ActionAnalysisReport)
    (approvals : Nat → String) (fuel : Nat)
    (plan : List TroubleshootingStep) :
    (runSession settings device_facts oracle approvals fuel 0
      (initialSession plan)).state.appendLog.Chain' (· < ·) ∧
    (runSession settings device_facts oracle approvals fuel 0
      (initialSession plan)).state.action_plan_history.length =
      (runSession settings device_facts oracle approvals fuel 0
        (initialSession plan)).state.appendLog.length := by
  have h := runSession_post settings device_facts oracle approvals fuel 0
    (initialSession plan) (initialSession_inv _ plan)
  exact ⟨h.2.2.2.1, h.2.2.2.2⟩

/-! ### Claim C5: budget monotonicity -/

/-- Counterexample to claim C5 as stated: in the trace where the budget
is exceeded (max_steps = 1, verdicts all continue) the router never
transitions to a terminal route — the run ends in a crash (pydantic
ValidationError), not in a transition to the result summary. -/
theorem budget_overflow_is_not_a_terminal_route :
    (runSession (settingsN 1) reachableFacts oracleCont approvalsNone 12 0
      (initialSession
        [stepD 1, stepD 2, stepD 3, stepD 4])).isTerminated = false ∧
    (runSession (settingsN 1) reachableFacts oracleCont approvalsNone 12 0
      (initialSession [stepD 1, stepD 2, stepD 3, stepD 4])).isCrashed =
      true ∧
    (runSession (settingsN 1) reachableFacts oracleCont approvalsNone 12 0
      (initialSession [stepD 1, stepD 2, stepD 3, stepD 4])).state.nDispatched
      = 2 :=
  ⟨rfl, rfl, rfl⟩

/-- Claim C5 as amended: with max_steps = N the session halts at or
before the step whose 1-indexed position is N + 1 (on the budget-overflow
cycle by an uncaught ValidationError rather than a clean terminal route),
and no step whose 1-indexed dispatch position exceeds N + 1 is ever
dispatched to execution: the number of dispatched steps never exceeds
N + 1, however many replans occur. -/
theorem dispatch_position_bounded (settings : Settings)
    (device_facts : DeviceFacts) (oracle : Nat → ActionAnalysisReport)
    (approvals : Nat → String) (fuel : Nat)
    (plan : List TroubleshootingStep) :
    (runSession settings device_facts oracle approvals fuel 0
      (initialSession plan)).state.nDispatched ≤
      settings.get_max_steps + 1 ∧
    (runSession settings device_facts oracle approvals fuel 0
      (initialSession plan)).state.dispatched.length =
      (runSession settings device_facts oracle approvals fuel 0
        (initialSession plan)).state.nDispatched := by
  have h := runSession_post settings device_facts oracle approvals fuel 0
    (initialSession plan) (initialSession_inv _ plan)
  exact ⟨h.1, h.2.1⟩

/-! ### Claim C7: escalation-type steps never reach execution -/

/-- Claim C7.  Across every session trace, no step handed to the
Execution adapter is escalation-typed; and when the router dequeues an
escalation-type step it synthesizes an escalate report, appends the step
to history immediately and routes to the result summary without
dispatching. -/
theorem escalation_step_never_executed :
    (∀ (settings : Settings) (device_facts : DeviceFacts)
      (oracle : Nat → ActionAnalysisReport) (approvals : Nat → String)
      (fuel : Nat) (plan : List TroubleshootingStep),
      ∀ st ∈ (runSession settings device_facts oracle approvals fuel 0
        (initialSession plan)).state.dispatched,
        st.action_type ≠ ActionType.escalation) ∧
    (∀ (settings : Settings) (device_facts : DeviceFacts)
      (h0 rest : List TroubleshootingStep) (s : TroubleshootingStep)
      (idx : Nat) (rs : List String),
      devFactsGet device_facts "reachable" false = true →
      s.action_type = ActionType.escalation →
      run_action_router_node settings device_facts
        ⟨h0, s :: rest, none, idx⟩ rs =
      .ok ⟨h0 ++ [s.withReport (some escalationReport)], rest,
        some (s.withReport (some escalationReport)), idx,
        .result_summary, 0⟩) := by
  constructor
  · intro settings device_facts oracle approvals fuel plan st hst
    have h := runSession_post settings device_facts oracle approvals fuel 0
      (initialSession plan) (initialSession_inv _ plan)
    exact h.2.2.1 st hst
  · intro settings device_facts h0 rest s idx rs hreach htype
    exact router_intercepts_escalation_step settings device_facts h0 rest s
      idx rs hreach htype

/-- Witness for `escalation_step_never_executed`, applying its
single-cycle part at a concrete escalation step. -/
theorem escalation_step_never_executed_witness :
    run_action_router_node (settingsN 15) reachableFacts
      ⟨[], [stepEsc], none, 0⟩ [] =
    .ok ⟨[stepEsc.withReport (some escalationReport)], [],
      some (stepEsc.withReport (some escalationReport)), 0,
      .result_summary, 0⟩ :=
  escalation_step_never_executed.2 (settingsN 15) reachableFacts [] []
    stepEsc 0 [] rfl rfl

end Adapt
